import Mathlib

/-!
# ESP32 show-control sketches: command codec, dispatcher and pattern engine

Shallow embedding of the three example sketches

* `examples/01-basic-led-control/led_control.cpp`
* `examples/02-espnow-sync/espnow_sync.cpp`
* `examples/03-lora-remote-control/lora_remote.cpp`

Global variables and function-local statics become fields of an explicit state
record, the clock (`millis()`) and radio results become parameters, `Serial`
output becomes a list of printed lines, and radio output becomes a list of the
byte packets handed to the radio.  C strings are lists of `Char`; `unsigned
long` / `uint32_t` are naturals reduced modulo `2^32`, `int` is `Int`.
-/

set_option linter.unusedVariables false

namespace ChaosLab

/-! ## C and Arduino primitives -/

/-- The NUL character that terminates a C string. -/
def NUL : Char := Char.ofNat 0

/-- The constant `LOW`. -/
def LOW : Int := 0

/-- The constant `HIGH`. -/
def HIGH : Int := 1

/-- Level of a pin after `digitalWrite(pin, val)`, `true` for high: every non-zero
value drives the pin high. -/
def digitalWrite (val : Int) : Bool := decide (val ≠ 0)

/-- Value of `digitalRead(pin)` for a pin at the given level. -/
def digitalRead (pin : Bool) : Int := if pin then HIGH else LOW

/-- C logical negation `!x` on an `int`. -/
def lnot (x : Int) : Int := if x = 0 then 1 else 0

/-- Subtraction of two `unsigned long` values (32 bits on the ESP32). -/
def usub32 (a b : Nat) : Nat := (a % 2 ^ 32 + 2 ^ 32 - b % 2 ^ 32) % 2 ^ 32

/-- Conversion of an `int` to `unsigned long`, as in a mixed comparison. -/
def toU32 (v : Int) : Nat := (v % 2 ^ 32).toNat

/-- Reading a 32-bit pattern as a two's complement `int`. -/
def toI32 (n : Nat) : Int := if n % 2 ^ 32 < 2 ^ 31 then (n % 2 ^ 32 : Nat) else (n % 2 ^ 32 : Nat) - 2 ^ 32

/-- Result of an `int` computation as the 32-bit hardware stores it. -/
def wrapInt32 (x : Int) : Int := toI32 (toU32 x)

/-- Content of a C string: the characters before the first NUL. -/
def cstr (s : List Char) : List Char := s.takeWhile (fun c => c != NUL)

/-- The test `strcmp(a, b) == 0`. -/
def streq (a b : List Char) : Bool := cstr a == cstr b

/-- Buffer contents after `strcpy(dst, src)`: the content of `src`, its terminator,
and the bytes of `dst` that the copy does not reach. -/
def strcpy (dst src : List Char) : List Char :=
  cstr src ++ [NUL] ++ dst.drop ((cstr src).length + 1)

/-- The `n` bytes that `strncpy(dst, src, n)` writes: at most `n` characters of the
content of `src`, padded with NUL up to `n` bytes. -/
def strncpy (src : List Char) (n : Nat) : List Char :=
  (cstr src).take n ++ List.replicate (n - ((cstr src).take n).length) NUL

/-- Four bytes of a 32-bit word in the byte order of the ESP32 (little-endian). -/
def le32 (n : Nat) : List Nat :=
  [n % 256, n / 256 % 256, n / 65536 % 256, n / 16777216 % 256]

/-- The 32-bit word stored in the first four bytes of a list. -/
def ofLe32 (bs : List Nat) : Nat :=
  bs.getD 0 0 % 256 + 256 * (bs.getD 1 0 % 256) + 65536 * (bs.getD 2 0 % 256)
    + 16777216 * (bs.getD 3 0 % 256)

/-- The byte of a `char`. -/
def charByte (c : Char) : Nat := c.toNat % 256

/-- The `char` of a byte. -/
def byteChar (b : Nat) : Char := Char.ofNat (b % 256)

/-- C `isspace` in the default locale. -/
def isspace (c : Char) : Bool := c.toNat == 32 || (9 ≤ c.toNat && c.toNat ≤ 13)

/-- C `tolower` in the default locale. -/
def tolower (c : Char) : Char :=
  if 65 ≤ c.toNat ∧ c.toNat ≤ 90 then Char.ofNat (c.toNat + 32) else c

/-- Arduino `String::trim`: leading and trailing whitespace removed. -/
def trim (s : List Char) : List Char := (s.dropWhile isspace).rdropWhile isspace

/-- Arduino `String::toLowerCase`. -/
def toLowerCase (s : List Char) : List Char := s.map tolower

/-- Arduino `String::startsWith`. -/
def startsWith (s p : List Char) : Bool := s.take p.length == p

/-- Arduino `String::substring(from)`. -/
def substring (s : List Char) (k : Nat) : List Char := s.drop k

/-- Value of the leading decimal digits of a string, continuing from `acc`. -/
def digitsVal (acc : Nat) : List Char → Nat
  | [] => acc
  | c :: cs =>
    if 48 ≤ c.toNat ∧ c.toNat ≤ 57 then digitsVal (acc * 10 + (c.toNat - 48)) cs else acc

/-- Saturation of `strtol` to the range of `long`. -/
def clampLong (v : Int) : Int :=
  if v < -(2 ^ 31) then -(2 ^ 31) else if 2 ^ 31 - 1 < v then 2 ^ 31 - 1 else v

/-- Arduino `String::toInt` (`atol`): optional whitespace, optional sign, decimal digits;
zero when no digits follow. -/
def toInt (s : List Char) : Int :=
  match s.dropWhile isspace with
  | '-' :: r => clampLong (-(digitsVal 0 r : Int))
  | '+' :: r => clampLong (digitsVal 0 r)
  | t => clampLong (digitsVal 0 t)

/-! ## Command names used by the sketches -/

def LED_ON : List Char := ['L', 'E', 'D', '_', 'O', 'N']
def LED_OFF : List Char := ['L', 'E', 'D', '_', 'O', 'F', 'F']
def LED_TOGGLE : List Char := ['L', 'E', 'D', '_', 'T', 'O', 'G', 'G', 'L', 'E']
def PATTERN : List Char := ['P', 'A', 'T', 'T', 'E', 'R', 'N']
def SHOW_START : List Char := ['S', 'H', 'O', 'W', '_', 'S', 'T', 'A', 'R', 'T']
def SHOW_STOP : List Char := ['S', 'H', 'O', 'W', '_', 'S', 'T', 'O', 'P']
def SCENE : List Char := ['S', 'C', 'E', 'N', 'E']
def PING : List Char := ['P', 'I', 'N', 'G']
def PONG : List Char := ['P', 'O', 'N', 'G']

/-! ## led_control.cpp -/

/-- Statics of `slowBlink` together with the level of the LED pin. -/
structure BlinkState where
  lastChange : Nat
  pin : Bool
  deriving DecidableEq, Repr

/-- One call of `slowBlink`; `now` is the value of the first `millis()` read and `now2`
the value of the second one, taken after the pin was written. -/
def slowBlink (now now2 : Nat) (s : BlinkState) : BlinkState :=
  if usub32 now s.lastChange > 1000 then
    { lastChange := now2, pin := digitalWrite (lnot (digitalRead s.pin)) }
  else s

/-! ## espnow_sync.cpp -/

/-- The record `struct_message`: `char command[32]; int value1; int value2;
unsigned long timestamp;`. -/
structure struct_message where
  command : List Char
  value1 : Int
  value2 : Int
  timestamp : Nat
  deriving DecidableEq, Repr

/-- The value of `sizeof(struct_message)`: 32 + 4 + 4 + 4 bytes. -/
def sizeofStructMessage : Nat := 44

/-- Bytes of a `struct_message` as `esp_now_send` transmits them. -/
def struct_message.toBytes (m : struct_message) : List Nat :=
  (m.command.take 32).map charByte ++ le32 (toU32 m.value1) ++ le32 (toU32 m.value2)
    ++ le32 (m.timestamp % 2 ^ 32)

/-- The record that `memcpy(&incomingMsg, data, sizeof(incomingMsg))` leaves in
`incomingMsg` when `data` holds at least 44 bytes. -/
def struct_message.ofBytes (bs : List Nat) : struct_message :=
  { command := (bs.take 32).map byteChar
    value1 := toI32 (ofLe32 (bs.drop 32))
    value2 := toI32 (ofLe32 (bs.drop 36))
    timestamp := ofLe32 (bs.drop 40) }

/-- Globals of the ESP-NOW sketch, the level of the LED pin, the packets handed to
`esp_now_send` and the lines printed on `Serial`. -/
structure EspNow where
  outgoingMsg : struct_message
  incomingMsg : struct_message
  ledPattern : Int
  lastPatternChange : Nat
  pin : Bool
  radio : List (List Nat)
  serial : List String
  deriving DecidableEq, Repr

namespace EspNow

/-- Appends one printed line. -/
def println (s : EspNow) (line : String) : EspNow := { s with serial := s.serial ++ [line] }

/-- The function `executeCommand` of the ESP-NOW sketch. -/
def executeCommand (cmd : List Char) (val1 val2 : Int) (s : EspNow) : EspNow :=
  if streq cmd LED_ON then
    ({ s with pin := digitalWrite HIGH }).println "💡 LED ON"
  else if streq cmd LED_OFF then
    ({ s with pin := digitalWrite LOW }).println "💡 LED OFF"
  else if streq cmd PATTERN then
    ({ s with ledPattern := val1 }).println ("🎨 Pattern changed to: " ++ toString val1)
  else if streq cmd SHOW_START then
    { s.println "🎬 SHOW STARTED!" with ledPattern := 1 }
  else if streq cmd SHOW_STOP then
    { s.println "⏹️ SHOW STOPPED!" with ledPattern := 0, pin := digitalWrite LOW }
  else if streq cmd SCENE then
    { s.println ("🎭 Scene changed to: " ++ toString val1) with ledPattern := wrapInt32 (val1 + 10) }
  else
    s.println "❓ Unknown command"

/-- The callback `OnDataRecv`; `incomingData.length` is its argument `len`, `now` the
value of `millis()`.  The copy reads `sizeof(incomingMsg)` bytes whatever `len` is.  The
pointer `incomingMsg.command` is read as a C string: a command field without NUL is read
on into the bytes of `value1`, `value2` and `timestamp`.  The result `none` stands for a
read past the end of a buffer: of `incomingData` when it is shorter than the record, of
`incomingMsg` when the record holds no NUL at all. -/
def OnDataRecv (incomingData : List Nat) (now : Nat) (s : EspNow) : Option EspNow :=
  if incomingData.length < sizeofStructMessage then none
  else
    let msg := struct_message.ofBytes (incomingData.take sizeofStructMessage)
    let command := (incomingData.take sizeofStructMessage).map byteChar
    if NUL ∈ command then
      let s1 := { s with incomingMsg := msg }
      let s2 := { s1 with serial := s1.serial ++
        [ "\n📨 Message Received:",
          "  Command: " ++ String.mk (cstr command),
          "  Value1: " ++ toString msg.value1,
          "  Value2: " ++ toString msg.value2,
          "  Latency: " ++ toString (usub32 now msg.timestamp) ++ "ms" ] }
      some (executeCommand command msg.value1 msg.value2 s2)
    else none

/-- The function `sendCommand`; `now` is the value of `millis()` and `sendOk` tells
whether `esp_now_send` returned `ESP_OK`. -/
def sendCommand (cmd : List Char) (val1 val2 : Int) (now : Nat) (sendOk : Bool)
    (s : EspNow) : EspNow :=
  let msg : struct_message :=
    { command := strcpy s.outgoingMsg.command cmd
      value1 := val1
      value2 := val2
      timestamp := now }
  let s1 := { s with outgoingMsg := msg }
  if sendOk then
    { s1 with radio := s1.radio ++ [msg.toBytes]
              serial := s1.serial ++ ["📤 Sent command: " ++ String.mk (cstr cmd)] }
  else
    s1.println "❌ Error sending command"

/-- The function `processSerialCommand` of the ESP-NOW sketch; `line` is `none` when
`Serial.available()` is zero and otherwise the text returned by
`Serial.readStringUntil`. -/
def processSerialCommand (line : Option (List Char)) (now : Nat) (sendOk : Bool)
    (s : EspNow) : EspNow :=
  match line with
  | none => s
  | some raw =>
    let input := trim raw
    if input = ['s', 't', 'a', 'r', 't'] then sendCommand SHOW_START 0 0 now sendOk s
    else if input = ['s', 't', 'o', 'p'] then sendCommand SHOW_STOP 0 0 now sendOk s
    else if input = ['o', 'n'] then sendCommand LED_ON 0 0 now sendOk s
    else if input = ['o', 'f', 'f'] then sendCommand LED_OFF 0 0 now sendOk s
    else if startsWith input ['s', 'c', 'e', 'n', 'e'] then
      sendCommand SCENE (toInt (substring input 5)) 0 now sendOk s
    else if startsWith input ['p', 'a', 't', 't', 'e', 'r', 'n'] then
      sendCommand PATTERN (toInt (substring input 7)) 0 now sendOk s
    else
      s.println "Unknown command. Try: start, stop, on, off, scene1-3, pattern0-9"

/-- The toggle `digitalWrite(LED_PIN, !digitalRead(LED_PIN))` followed by
`lastPatternChange = now`. -/
def toggleAt (now : Nat) (s : EspNow) : EspNow :=
  { s with pin := digitalWrite (lnot (digitalRead s.pin)), lastPatternChange := now }

/-- The function `updateLED`; `now` is the value of `millis()`. -/
def updateLED (now : Nat) (s : EspNow) : EspNow :=
  if s.ledPattern = 0 then { s with pin := digitalWrite LOW }
  else if s.ledPattern = 1 then
    if usub32 now s.lastPatternChange > 1000 then toggleAt now s else s
  else if s.ledPattern = 2 then
    if usub32 now s.lastPatternChange > 200 then toggleAt now s else s
  else if s.ledPattern = 3 then
    if usub32 now s.lastPatternChange > 50 then toggleAt now s else s
  else if s.ledPattern = 10 ∨ s.ledPattern = 11 ∨ s.ledPattern = 12 then
    let interval : Int := Int.tdiv 1000 (s.ledPattern - 9)
    if usub32 now s.lastPatternChange > toU32 interval then toggleAt now s else s
  else s

end EspNow

/-! ## lora_remote.cpp -/

/-- The record `LoRaMessage`: `char command[16]; int value1; int value2;
uint32_t messageId;`. -/
structure LoRaMessage where
  command : List Char
  value1 : Int
  value2 : Int
  messageId : Nat
  deriving DecidableEq, Repr

/-- The value of `sizeof(LoRaMessage)`: 16 + 4 + 4 + 4 bytes. -/
def sizeofLoRaMessage : Nat := 28

/-- Bytes of a `LoRaMessage` as `LoRa.write((uint8_t*)&msg, sizeof(msg))` transmits them. -/
def LoRaMessage.toBytes (m : LoRaMessage) : List Nat :=
  (m.command.take 16).map charByte ++ le32 (toU32 m.value1) ++ le32 (toU32 m.value2)
    ++ le32 (m.messageId % 2 ^ 32)

/-- The record that `LoRa.readBytes((uint8_t*)&msg, sizeof(msg))` leaves in `msg`. -/
def LoRaMessage.ofBytes (bs : List Nat) : LoRaMessage :=
  { command := (bs.take 16).map byteChar
    value1 := toI32 (ofLe32 (bs.drop 16))
    value2 := toI32 (ofLe32 (bs.drop 20))
    messageId := ofLe32 (bs.drop 24) }

/-- Globals of the LoRa sketch, the static `lastBlink` of `loop`, the level of the LED
pin, the packets written to the radio and the lines printed on `Serial`. -/
structure LoRa where
  messageCounter : Nat
  ledState : Int
  currentScene : Int
  showRunning : Bool
  lastBlink : Nat
  pin : Bool
  radio : List (List Nat)
  serial : List String
  deriving DecidableEq, Repr

namespace LoRa

/-- Appends one printed line. -/
def println (s : LoRa) (line : String) : LoRa := { s with serial := s.serial ++ [line] }

/-- The record that `sendLoRaCommand` builds in its local `msg`. -/
def buildMessage (cmd : List Char) (val1 val2 : Int) (s : LoRa) : LoRaMessage :=
  { command := strncpy cmd 15 ++ [NUL]
    value1 := val1
    value2 := val2
    messageId := s.messageCounter }

/-- The function `sendLoRaCommand`. -/
def sendLoRaCommand (cmd : List Char) (val1 val2 : Int) (s : LoRa) : LoRa :=
  let msg := buildMessage cmd val1 val2 s
  { s with
    messageCounter := (s.messageCounter + 1) % 2 ^ 32
    radio := s.radio ++ [msg.toBytes]
    serial := s.serial ++
      ["📤 Sent: " ++ String.mk (cstr cmd) ++ " [" ++ toString val1 ++ "," ++ toString val2
        ++ "] #" ++ toString msg.messageId] }

/-- The function `executeCommand` of the LoRa sketch; `isTransmitter` is the value of
the constant `IS_TRANSMITTER`. -/
def executeCommand (isTransmitter : Bool) (cmd : List Char) (val1 val2 : Int)
    (s : LoRa) : LoRa :=
  if streq cmd LED_ON then
    ({ s with pin := digitalWrite HIGH, ledState := HIGH }).println "💡 LED ON"
  else if streq cmd LED_OFF then
    ({ s with pin := digitalWrite LOW, ledState := LOW }).println "💡 LED OFF"
  else if streq cmd LED_TOGGLE then
    ({ s with ledState := lnot s.ledState, pin := digitalWrite (lnot s.ledState) }).println
      "💡 LED TOGGLED"
  else if streq cmd SHOW_START then
    { ({ s with showRunning := true }).println "🎬 SHOW STARTED!" with pin := digitalWrite HIGH }
  else if streq cmd SHOW_STOP then
    { ({ s with showRunning := false }).println "⏹️ SHOW STOPPED!" with pin := digitalWrite LOW }
  else if streq cmd SCENE then
    ({ s with currentScene := val1 }).println ("🎭 Scene changed to: " ++ toString val1)
  else if streq cmd PING then
    let s1 := s.println "🏓 PING received! Sending PONG..."
    if isTransmitter = false then sendLoRaCommand PONG 0 0 s1 else s1
  else if streq cmd PONG then
    s.println "🏓 PONG received!"
  else
    s.println ("❓ Unknown command: " ++ String.mk (cstr cmd))

/-- The function `receiveLoRa`; `packet` holds the bytes of the pending packet (empty
when none is pending, so that `LoRa.parsePacket()` returns its length), `rssi` and `snr`
are the printed signal readings.  The pointer `msg.command` is read as a C string: a
command field without NUL is read on into the bytes of `value1`, `value2` and
`messageId`; the model follows the read up to the end of the record. -/
def receiveLoRa (isTransmitter : Bool) (packet : List Nat) (rssi : Int) (snr : String)
    (s : LoRa) : LoRa :=
  if packet.length = sizeofLoRaMessage then
    let msg := LoRaMessage.ofBytes packet
    let command := packet.map byteChar
    let s1 := { s with serial := s.serial ++
      [ "\n📨 Message Received:",
        "  Command: " ++ String.mk (cstr command),
        "  Values: [" ++ toString msg.value1 ++ "," ++ toString msg.value2 ++ "]",
        "  Message ID: " ++ toString msg.messageId,
        "  RSSI: " ++ toString rssi ++ " dBm",
        "  SNR: " ++ snr ++ " dB" ] }
    executeCommand isTransmitter command msg.value1 msg.value2 s1
  else s

/-- The function `printHelp`. -/
def printHelp (s : LoRa) : LoRa :=
  { s with serial := s.serial ++
    [ "\n📝 Available Commands:",
      "  start     - Start show",
      "  stop      - Stop show",
      "  on        - LED on",
      "  off       - LED off",
      "  toggle    - Toggle LED",
      "  scene1-9  - Change scene",
      "  ping      - Test connection",
      "  status    - Show system status",
      "  help      - Show this help",
      "" ] }

/-- The function `printStatus`. -/
def printStatus (isTransmitter : Bool) (s : LoRa) : LoRa :=
  { s with serial := s.serial ++
    [ "\n📊 System Status:",
      "  Role: " ++ (if isTransmitter then "TRANSMITTER" else "RECEIVER"),
      "  Frequency: 915.00 MHz",
      "  Messages sent: " ++ toString s.messageCounter,
      "  LED State: " ++ (if s.ledState ≠ 0 then "ON" else "OFF"),
      "  Show Running: " ++ (if s.showRunning then "YES" else "NO"),
      "  Current Scene: " ++ toString s.currentScene,
      "" ] }

/-- The function `processSerialCommand` of the LoRa sketch; `line` is `none` when
`Serial.available()` is zero and otherwise the text returned by
`Serial.readStringUntil`. -/
def processSerialCommand (isTransmitter : Bool) (line : Option (List Char))
    (s : LoRa) : LoRa :=
  match line with
  | none => s
  | some raw =>
    let input := toLowerCase (trim raw)
    if input = ['s', 't', 'a', 'r', 't'] then sendLoRaCommand SHOW_START 0 0 s
    else if input = ['s', 't', 'o', 'p'] then sendLoRaCommand SHOW_STOP 0 0 s
    else if input = ['o', 'n'] then sendLoRaCommand LED_ON 0 0 s
    else if input = ['o', 'f', 'f'] then sendLoRaCommand LED_OFF 0 0 s
    else if input = ['t', 'o', 'g', 'g', 'l', 'e'] then sendLoRaCommand LED_TOGGLE 0 0 s
    else if input = ['p', 'i', 'n', 'g'] then sendLoRaCommand PING 0 0 s
    else if startsWith input ['s', 'c', 'e', 'n', 'e'] then
      sendLoRaCommand SCENE (toInt (substring input 5)) 0 s
    else if input = ['h', 'e', 'l', 'p'] then printHelp s
    else if input = ['s', 't', 'a', 't', 'u', 's'] then printStatus isTransmitter s
    else s.println "❓ Unknown command. Type 'help' for commands."

end LoRa

/-! ## Startup states and tick traces -/

/-- A zero-initialised `struct_message`, as the globals are at startup. -/
def struct_message.zero : struct_message :=
  { command := List.replicate 32 NUL, value1 := 0, value2 := 0, timestamp := 0 }

/-- State of the ESP-NOW sketch at startup. -/
def EspNow.init : EspNow :=
  { outgoingMsg := struct_message.zero
    incomingMsg := struct_message.zero
    ledPattern := 0
    lastPatternChange := 0
    pin := false
    radio := []
    serial := [] }

/-- For each tick of a sequence of `updateLED` calls, whether the call inverted the level
of the LED pin. -/
def EspNow.toggleTrace : List Nat → EspNow → List Bool
  | [], _ => []
  | t :: ts, s => ((EspNow.updateLED t s).pin != s.pin) :: toggleTrace ts (EspNow.updateLED t s)

/-- For each call of a sequence of `slowBlink` calls, given with its two clock readings,
whether the call inverted the level of the LED pin. -/
def blinkTrace : List (Nat × Nat) → BlinkState → List Bool
  | [], _ => []
  | (t, t2) :: ts, s =>
    ((slowBlink t t2 s).pin != s.pin) :: blinkTrace ts (slowBlink t t2 s)

/-- State of the LoRa sketch when `setup` has returned. -/
def LoRa.init : LoRa :=
  { messageCounter := 0
    ledState := LOW
    currentScene := 0
    showRunning := false
    lastBlink := 0
    pin := false
    radio := []
    serial := [] }

/-! ## Sample inputs -/

/-- A command name of exactly sixteen bytes. -/
def name16 : List Char :=
  ['A', 'B', 'C', 'D', 'E', 'F', 'G', 'H', 'I', 'J', 'K', 'L', 'M', 'N', 'O', 'P']

/-- A command name of seventeen bytes. -/
def name17 : List Char :=
  ['S', 'H', 'O', 'W', '_', 'S', 'T', 'A', 'R', 'T', '_', 'D', 'E', 'L', 'A', 'Y', 'S']

/-- The names that `executeCommand` of the ESP-NOW sketch compares its argument with. -/
def EspNow.commandNames : List (List Char) :=
  [LED_ON, LED_OFF, PATTERN, SHOW_START, SHOW_STOP, SCENE]

/-- The names that `executeCommand` of the LoRa sketch compares its argument with. -/
def LoRa.commandNames : List (List Char) :=
  [LED_ON, LED_OFF, LED_TOGGLE, SHOW_START, SHOW_STOP, SCENE, PING, PONG]

/-- A command name that neither dispatcher knows. -/
def DANCE : List Char := ['D', 'A', 'N', 'C', 'E']

/-- A datagram of 45 bytes: the 44 bytes of a `struct_message` carrying `LED_ON`,
followed by one more byte. -/
def datagram45 : List Nat :=
  ({ command := strcpy (List.replicate 32 NUL) LED_ON
     value1 := 0
     value2 := 0
     timestamp := 0 } : struct_message).toBytes ++ [0]

/-- A datagram of 6 bytes: the characters of `LED_ON` and nothing else. -/
def datagram6 : List Nat := LED_ON.map charByte

/-- The serial line `START`. -/
def lineUpper : List Char := ['S', 'T', 'A', 'R', 'T']

/-- The serial line `start` with two blanks before and after it. -/
def linePadded : List Char := [' ', ' ', 's', 't', 'a', 'r', 't', ' ', ' ']

/-! ## The pulse pattern of led_control.cpp -/

/-- Statics of `pulse` together with the values it has passed to `analogWrite`, oldest
first. -/
structure PulseState where
  lastUpdate : Nat
  brightness : Int
  fadeAmount : Int
  pwm : List Int
  deriving DecidableEq, Repr

/-- Statics of `pulse` before its first call: `lastUpdate = 0`, `brightness = 0`,
`fadeAmount = 5`. -/
def PulseState.init : PulseState :=
  { lastUpdate := 0, brightness := 0, fadeAmount := 5, pwm := [] }

/-- One call of `pulse`; `now` is the value of the first `millis()` read and `now2` the
value of the second one. -/
def pulse (now now2 : Nat) (s : PulseState) : PulseState :=
  if usub32 now s.lastUpdate > 30 then
    let brightness := wrapInt32 (s.brightness + s.fadeAmount)
    let fadeAmount :=
      if brightness ≤ 0 ∨ brightness ≥ 255 then wrapInt32 (-s.fadeAmount) else s.fadeAmount
    { lastUpdate := now2
      brightness := brightness
      fadeAmount := fadeAmount
      pwm := s.pwm ++ [s.brightness] }
  else s

/-- A sequence of calls of `pulse`, each with its two clock readings. -/
def pulseRun : List (Nat × Nat) → PulseState → PulseState
  | [], s => s
  | (now, now2) :: ts, s => pulseRun ts (pulse now now2 s)

/-- Clock readings of `n` calls that are 31 ms apart, the first at 31 ms. -/
def ticksEvery31 (n : Nat) : List (Nat × Nat) :=
  (List.range n).map (fun k => (31 * (k + 1), 31 * (k + 1)))

/-! ## Intervals and state components of the dispatchers -/

/-- The interval that `updateLED` compares `now - lastPatternChange` with for the pattern
`p`; `none` for the patterns that have no timed case. -/
def EspNow.patternInterval (p : Int) : Option Nat :=
  if p = 1 then some 1000
  else if p = 2 then some 200
  else if p = 3 then some 50
  else if p = 10 ∨ p = 11 ∨ p = 12 then some (toU32 (Int.tdiv 1000 (p - 9)))
  else none

/-- Number of state components of the ESP-NOW sketch that differ between two states,
among the pattern state (`ledPattern`) and the LED output level; the sketch has no show
state. -/
def EspNow.changedComponents (s t : EspNow) : Nat :=
  (if s.ledPattern ≠ t.ledPattern then 1 else 0) + (if s.pin ≠ t.pin then 1 else 0)

/-- Number of state components of the LoRa sketch that differ between two states, among
the show state (`showRunning`, `currentScene`) and the LED output level; the sketch has
no pattern state. -/
def LoRa.changedComponents (s t : LoRa) : Nat :=
  (if s.showRunning ≠ t.showRunning ∨ s.currentScene ≠ t.currentScene then 1 else 0)
    + (if s.pin ≠ t.pin then 1 else 0)

/-- The function `loop` of the LoRa sketch without its final `delay`; `line` and `packet`
are the pending serial line and radio packet, `now` and `now2` the values of the two
`millis()` reads of the heartbeat. -/
def LoRa.loop (isTransmitter : Bool) (line : Option (List Char)) (packet : List Nat)
    (rssi : Int) (snr : String) (now now2 : Nat) (s : LoRa) : LoRa :=
  let s1 :=
    if isTransmitter then LoRa.processSerialCommand isTransmitter line s
    else LoRa.receiveLoRa isTransmitter packet rssi snr s
  if s1.showRunning then
    if usub32 now s1.lastBlink > 1000 then
      { s1 with pin := digitalWrite (lnot (digitalRead s1.pin)), lastBlink := now2 }
    else s1
  else s1

/-- Invariant of the statics of `pulse`: the brightness is a multiple of 5, it lies in
0..250 while the step is +5 and in 5..255 while the step is -5, and every value passed to
`analogWrite` lies in 0..255. -/
def PulseState.Inv (s : PulseState) : Prop :=
  ((s.fadeAmount = 5 ∧ 0 ≤ s.brightness ∧ s.brightness ≤ 250)
      ∨ (s.fadeAmount = -5 ∧ 5 ≤ s.brightness ∧ s.brightness ≤ 255))
    ∧ s.brightness % 5 = 0
    ∧ ∀ v ∈ s.pwm, 0 ≤ v ∧ v ≤ 255

instance (s : PulseState) : Decidable s.Inv := by
  unfold PulseState.Inv
  infer_instance

/-- Whether the variable `ledState` of the LoRa sketch agrees with the level of the LED
pin. -/
def LoRa.tracked (s : LoRa) : Bool := digitalWrite s.ledState == s.pin

/-- A LoRa packet of 28 bytes whose command field holds sixteen letters `A` and no NUL,
followed by `value1` with the bytes `B`, `C`, 0, 0 and by zero `value2` and `messageId`. -/
def packetUnterminated : List Nat :=
  List.replicate 16 65 ++ [66, 67, 0, 0] ++ List.replicate 8 0

/-- An ESP-NOW datagram of 44 bytes whose command field holds thirty-two letters `A` and
no NUL, followed by `value1` with the bytes `B`, `C`, 0, 0 and by zero `value2` and
`timestamp`. -/
def datagramUnterminated : List Nat :=
  List.replicate 32 65 ++ [66, 67, 0, 0] ++ List.replicate 8 0

/-! ## Helper lemmas -/

theorem usub32_of_le {a b : Nat} (h : b ≤ a) (ha : a < 2 ^ 32) : usub32 a b = a - b := by
  unfold usub32
  omega

theorem toggle_level (p : Bool) : digitalWrite (lnot (digitalRead p)) = !p := by
  cases p <;> decide

theorem EspNow.updateLED_slow (now : Nat) (s : EspNow) (hp : s.ledPattern = 1) :
    EspNow.updateLED now s
      = if usub32 now s.lastPatternChange > 1000 then EspNow.toggleAt now s else s := by
  simp [EspNow.updateLED, hp]

/-! ## C1: timing of the slow-blink pattern -/

/-- C1, as stated, fails: with `ledPattern = 1` and `lastPatternChange = 0` the ticks at
0, 999, 1000, 1999 and 2000 ms do not toggle at 1000 and 2000; the tick at 1000 ms, where
`now - lastPatternChange = 1000 >= 1000`, leaves the state as it is, and the only toggle
is the one at 1999 ms.  The function `slowBlink` behaves the same way. -/
theorem c1_no_toggle_at_1000 :
    EspNow.toggleTrace [0, 999, 1000, 1999, 2000] { EspNow.init with ledPattern := 1 }
        ≠ [false, false, true, false, true]
      ∧ EspNow.toggleTrace [0, 999, 1000, 1999, 2000] { EspNow.init with ledPattern := 1 }
        = [false, false, false, true, false]
      ∧ (1000 - ({ EspNow.init with ledPattern := 1 } : EspNow).lastPatternChange ≥ 1000
          ∧ EspNow.updateLED 1000 { EspNow.init with ledPattern := 1 }
            = { EspNow.init with ledPattern := 1 })
      ∧ blinkTrace [(0, 0), (999, 999), (1000, 1000), (1999, 1999), (2000, 2000)]
          { lastChange := 0, pin := false }
        = [false, false, false, true, false] := by
  decide

/-- C1, amended: the tick of the slow-blink pattern inverts the output and records the
transition if and only if the unsigned 32-bit difference `now - last_transition` is
strictly greater than 1000, also across a wrap of the clock; otherwise it changes
nothing.  `updateLED` with `ledPattern = 1` records `now`, `slowBlink` records the value
of its second `millis()` read.  While the clock has not wrapped the unsigned difference
is the plain difference, and for ticks at 0, 999, 1000, 1999 and 2000 ms from
`last_transition = 0` the output toggles exactly at the tick at 1999 ms. -/
theorem c1_slow_blink_strict (s : EspNow) (b : BlinkState) (now now2 : Nat)
    (hp : s.ledPattern = 1) :
    ((EspNow.updateLED now s).pin = (!s.pin) ↔ 1000 < usub32 now s.lastPatternChange)
      ∧ (1000 < usub32 now s.lastPatternChange →
          EspNow.updateLED now s = { s with pin := !s.pin, lastPatternChange := now })
      ∧ (usub32 now s.lastPatternChange ≤ 1000 → EspNow.updateLED now s = s)
      ∧ ((slowBlink now now2 b).pin = (!b.pin) ↔ 1000 < usub32 now b.lastChange)
      ∧ (1000 < usub32 now b.lastChange →
          slowBlink now now2 b = { lastChange := now2, pin := !b.pin })
      ∧ (usub32 now b.lastChange ≤ 1000 → slowBlink now now2 b = b)
      ∧ (∀ t last : Nat, last ≤ t → t < 2 ^ 32 → usub32 t last = t - last)
      ∧ (∀ t last : Nat, t < last → last < 2 ^ 32 → usub32 t last = t + 2 ^ 32 - last)
      ∧ (EspNow.updateLED 501
            { EspNow.init with ledPattern := 1, lastPatternChange := 2 ^ 32 - 500 }).pin = true
      ∧ EspNow.toggleTrace [0, 999, 1000, 1999, 2000] { EspNow.init with ledPattern := 1 }
          = [false, false, false, true, false]
      ∧ blinkTrace [(0, 0), (999, 999), (1000, 1000), (1999, 1999), (2000, 2000)]
          { lastChange := 0, pin := false }
          = [false, false, false, true, false]
      ∧ blinkTrace [(1001, 1003), (2002, 2002), (2004, 2004)] { lastChange := 0, pin := false }
          = [true, false, true] := by
  rw [EspNow.updateLED_slow now s hp]
  unfold slowBlink
  simp only [EspNow.toggleAt, toggle_level]
  refine ⟨?_, ?_, ?_, ?_, ?_, ?_, ?_, ?_, by decide, by decide, by decide, by decide⟩
  · by_cases h : 1000 < usub32 now s.lastPatternChange
    · simp [h]
    · simp [h]
  · intro h
    simp [h]
  · intro h
    have h2 : ¬ (usub32 now s.lastPatternChange > 1000) := by omega
    simp [h2]
  · by_cases h : 1000 < usub32 now b.lastChange
    · simp [h]
    · simp [h]
  · intro h
    simp [h]
  · intro h
    have h2 : ¬ (usub32 now b.lastChange > 1000) := by omega
    simp [h2]
  · intro t last h1 h2
    exact usub32_of_le h1 h2
  · intro t last h1 h2
    unfold usub32
    omega

/-- Witness of `c1_slow_blink_strict`: the ticks at 1999 ms and at 1000 ms from the
startup phase. -/
theorem c1_slow_blink_strict_witness :
    (EspNow.updateLED 1999 { EspNow.init with ledPattern := 1 }).pin = true
      ∧ EspNow.updateLED 1000 { EspNow.init with ledPattern := 1 }
          = { EspNow.init with ledPattern := 1 }
      ∧ slowBlink 1001 1003 { lastChange := 0, pin := false }
          = { lastChange := 1003, pin := true } := by
  have h := c1_slow_blink_strict { EspNow.init with ledPattern := 1 }
    { lastChange := 0, pin := false } 1999 1999 rfl
  have h2 := c1_slow_blink_strict { EspNow.init with ledPattern := 1 }
    { lastChange := 0, pin := false } 1000 1000 rfl
  have h3 := c1_slow_blink_strict { EspNow.init with ledPattern := 1 }
    { lastChange := 0, pin := false } 1001 1003 rfl
  exact ⟨by simpa [EspNow.init] using h.1.mpr (by decide), h2.2.2.1 (by decide),
    h3.2.2.2.2.1 (by decide)⟩

/-! ## Helper lemmas for the wire format -/

theorem ofLe32_le32 (n : Nat) (rest : List Nat) : ofLe32 (le32 n ++ rest) = n % 2 ^ 32 := by
  simp only [le32, ofLe32, List.cons_append, List.getD_cons_zero, List.getD_cons_succ,
    Nat.mod_mod]
  omega

theorem toI32_toU32 (v : Int) (hlo : -(2 ^ 31) ≤ v) (hhi : v < 2 ^ 31) : toI32 (toU32 v) = v := by
  unfold toI32 toU32
  split_ifs with h <;> omega

theorem toU32_lt (v : Int) : toU32 v < 2 ^ 32 := by
  unfold toU32
  omega

theorem byteChar_charByte (c : Char) (h : c.toNat < 256) : byteChar (charByte c) = c := by
  unfold byteChar charByte
  rw [Nat.mod_eq_of_lt h, Nat.mod_eq_of_lt h]
  exact Char.ofNat_toNat c

theorem map_byteChar_charByte (l : List Char) (h : ∀ c ∈ l, c.toNat < 256) :
    (l.map charByte).map byteChar = l := by
  induction l with
  | nil => rfl
  | cons c cs ih =>
    simp only [List.map_cons, List.cons.injEq]
    exact ⟨byteChar_charByte c (h c (List.mem_cons_self c cs)),
      ih (fun d hd => h d (List.mem_cons_of_mem c hd))⟩

theorem cstr_of_nul_free (l : List Char) (h : ∀ c ∈ l, c ≠ NUL) : cstr l = l := by
  unfold cstr
  rw [List.takeWhile_eq_self_iff]
  intro c hc
  simpa using h c hc

theorem cstr_append_nul (l r : List Char) (h : ∀ c ∈ l, c ≠ NUL) : cstr (l ++ NUL :: r) = l := by
  unfold cstr
  rw [List.takeWhile_append_of_pos (by intro c hc; simpa using h c hc)]
  simp

theorem LoRaMessage.ofBytes_toBytes (m : LoRaMessage) (hlen : m.command.length = 16)
    (hc : ∀ c ∈ m.command, c.toNat < 256)
    (h1 : -(2 ^ 31) ≤ m.value1 ∧ m.value1 < 2 ^ 31)
    (h2 : -(2 ^ 31) ≤ m.value2 ∧ m.value2 < 2 ^ 31)
    (h3 : m.messageId < 2 ^ 32) :
    LoRaMessage.ofBytes m.toBytes = m := by
  have hl : (List.map charByte m.command).length = 16 := by simp [hlen]
  have ht : m.command.take 16 = m.command := List.take_of_length_le (by omega)
  unfold LoRaMessage.ofBytes LoRaMessage.toBytes
  rw [ht]
  simp only [List.append_assoc]
  rw [List.take_left' hl, List.drop_left' hl]
  rw [show (20 : Nat) = 16 + 4 from rfl, show (24 : Nat) = 16 + 8 from rfl]
  rw [← List.drop_drop, ← List.drop_drop, List.drop_left' hl]
  rw [ofLe32_le32, map_byteChar_charByte _ hc]
  have e1 : List.drop 4 (le32 (toU32 m.value1) ++ (le32 (toU32 m.value2) ++ le32 (m.messageId % 2 ^ 32)))
      = le32 (toU32 m.value2) ++ le32 (m.messageId % 2 ^ 32) := rfl
  have e2 : List.drop 8 (le32 (toU32 m.value1) ++ (le32 (toU32 m.value2) ++ le32 (m.messageId % 2 ^ 32)))
      = le32 (m.messageId % 2 ^ 32) ++ [] := rfl
  rw [e1, e2, ofLe32_le32, ofLe32_le32]
  rw [Nat.mod_eq_of_lt (toU32_lt _), Nat.mod_eq_of_lt (toU32_lt _)]
  rw [toI32_toU32 _ h1.1 h1.2, toI32_toU32 _ h2.1 h2.2]
  have e3 : m.messageId % 2 ^ 32 = m.messageId := Nat.mod_eq_of_lt h3
  rw [e3, e3]

theorem LoRa.buildMessage_command (name : List Char) (v1 v2 : Int) (s : LoRa)
    (hn : ∀ c ∈ name, c ≠ NUL) :
    (LoRa.buildMessage name v1 v2 s).command
      = name.take 15 ++ NUL :: List.replicate (15 - (name.take 15).length) NUL := by
  simp only [LoRa.buildMessage, strncpy, cstr_of_nul_free name hn, List.append_assoc]
  rw [← List.replicate_succ', List.replicate_succ]

theorem LoRa.buildMessage_length (name : List Char) (v1 v2 : Int) (s : LoRa) :
    (LoRa.buildMessage name v1 v2 s).command.length = 16 := by
  simp only [LoRa.buildMessage, strncpy, List.length_append, List.length_replicate,
    List.length_take, List.length_singleton]
  omega

theorem NUL_toNat : NUL.toNat = 0 := by decide

theorem LoRa.buildMessage_bytes (name : List Char) (v1 v2 : Int) (s : LoRa)
    (hn : ∀ c ∈ name, c ≠ NUL ∧ c.toNat < 256) :
    ∀ c ∈ (LoRa.buildMessage name v1 v2 s).command, c.toNat < 256 := by
  intro c hc
  rw [LoRa.buildMessage_command name v1 v2 s (fun d hd => (hn d hd).1)] at hc
  rcases List.mem_append.mp hc with h | h
  · exact (hn c (List.mem_of_mem_take h)).2
  · rcases List.mem_cons.mp h with h | h
    · rw [h, NUL_toNat]; omega
    · rw [(List.mem_replicate.mp h).2, NUL_toNat]; omega

theorem LoRa.buildMessage_decode (name : List Char) (v1 v2 : Int) (s : LoRa)
    (hn : ∀ c ∈ name, c ≠ NUL ∧ c.toNat < 256)
    (h1 : -(2 ^ 31) ≤ v1 ∧ v1 < 2 ^ 31) (h2 : -(2 ^ 31) ≤ v2 ∧ v2 < 2 ^ 31)
    (hc : s.messageCounter < 2 ^ 32) :
    LoRaMessage.ofBytes (LoRa.buildMessage name v1 v2 s).toBytes
      = LoRa.buildMessage name v1 v2 s :=
  LoRaMessage.ofBytes_toBytes _ (LoRa.buildMessage_length name v1 v2 s)
    (LoRa.buildMessage_bytes name v1 v2 s hn) h1 h2 hc

theorem LoRaMessage.toBytes_length (m : LoRaMessage) (h : m.command.length = 16) :
    m.toBytes.length = sizeofLoRaMessage := by
  simp [LoRaMessage.toBytes, le32, h, sizeofLoRaMessage]

/-! ## C2: round trip of the LoRa message -/

/-- C2, as stated, fails: a NUL-free command name of exactly 16 bytes (within the stated
bound `length <= 16`) is not read back from the record that `sendLoRaCommand` builds;
the command field holds its first 15 bytes and a terminator. -/
theorem c2_sixteen_byte_name_is_cut :
    (∀ c ∈ name16, c ≠ NUL) ∧ name16.length ≤ 16
      ∧ cstr (LoRa.buildMessage name16 1 2 LoRa.init).command ≠ name16
      ∧ cstr (LoRaMessage.ofBytes (LoRa.buildMessage name16 1 2 LoRa.init).toBytes).command
          = name16.take 15 := by
  decide

/-- C2, amended: for every NUL-free command name of at most 15 bytes (the capacity of 16
less the terminator), every `value1` and `value2` in the range of `int` and every
counter below `2^32`, the packet that `sendLoRaCommand` hands to the radio has the size
of a `LoRaMessage`, and reading it back gives exactly the name (the bytes before the
first NUL of the command field), `value1`, `value2` and the counter. -/
theorem c2_round_trip (name : List Char) (v1 v2 : Int) (s : LoRa)
    (hn : ∀ c ∈ name, c ≠ NUL ∧ c.toNat < 256) (hlen : name.length ≤ 15)
    (h1 : -(2 ^ 31) ≤ v1 ∧ v1 < 2 ^ 31) (h2 : -(2 ^ 31) ≤ v2 ∧ v2 < 2 ^ 31)
    (hc : s.messageCounter < 2 ^ 32) :
    (LoRa.sendLoRaCommand name v1 v2 s).radio
        = s.radio ++ [(LoRa.buildMessage name v1 v2 s).toBytes]
      ∧ (LoRa.buildMessage name v1 v2 s).toBytes.length = sizeofLoRaMessage
      ∧ cstr (LoRaMessage.ofBytes (LoRa.buildMessage name v1 v2 s).toBytes).command = name
      ∧ (LoRaMessage.ofBytes (LoRa.buildMessage name v1 v2 s).toBytes).value1 = v1
      ∧ (LoRaMessage.ofBytes (LoRa.buildMessage name v1 v2 s).toBytes).value2 = v2
      ∧ (LoRaMessage.ofBytes (LoRa.buildMessage name v1 v2 s).toBytes).messageId
          = s.messageCounter := by
  rw [LoRa.buildMessage_decode name v1 v2 s hn h1 h2 hc]
  refine ⟨rfl, LoRaMessage.toBytes_length _ (LoRa.buildMessage_length name v1 v2 s), ?_,
    rfl, rfl, rfl⟩
  rw [LoRa.buildMessage_command name v1 v2 s (fun d hd => (hn d hd).1),
    cstr_append_nul _ _ (fun d hd => (hn d (List.mem_of_mem_take hd)).1)]
  exact List.take_of_length_le hlen

/-- Witness of `c2_round_trip`: the command `SCENE` with values 2 and 0 at startup. -/
theorem c2_round_trip_witness :
    cstr (LoRaMessage.ofBytes (LoRa.buildMessage SCENE 2 0 LoRa.init).toBytes).command = SCENE
      ∧ (LoRaMessage.ofBytes (LoRa.buildMessage SCENE 2 0 LoRa.init).toBytes).value1 = 2 :=
  have h := c2_round_trip SCENE 2 0 LoRa.init (by decide) (by decide) (by decide) (by decide)
    (by decide)
  ⟨h.2.2.1, h.2.2.2.1⟩

/-! ## C3: truncation of long names -/

/-- C3: for every command name longer than the capacity of 16 bytes, the command field
that `sendLoRaCommand` writes is the first 15 bytes of the name followed by a NUL
terminator, the name read back from the transmitted packet is the first 15 bytes of the
input, and `value1`, `value2` and `messageId` are stored and read back unchanged. -/
theorem c3_truncation (name : List Char) (v1 v2 : Int) (s : LoRa)
    (hn : ∀ c ∈ name, c ≠ NUL ∧ c.toNat < 256) (hlen : 16 < name.length)
    (h1 : -(2 ^ 31) ≤ v1 ∧ v1 < 2 ^ 31) (h2 : -(2 ^ 31) ≤ v2 ∧ v2 < 2 ^ 31)
    (hc : s.messageCounter < 2 ^ 32) :
    (LoRa.buildMessage name v1 v2 s).command = name.take 15 ++ [NUL]
      ∧ (name.take 15).length = 15
      ∧ (LoRa.sendLoRaCommand name v1 v2 s).radio
          = s.radio ++ [(LoRa.buildMessage name v1 v2 s).toBytes]
      ∧ cstr (LoRaMessage.ofBytes (LoRa.buildMessage name v1 v2 s).toBytes).command
          = name.take 15
      ∧ (LoRaMessage.ofBytes (LoRa.buildMessage name v1 v2 s).toBytes).value1 = v1
      ∧ (LoRaMessage.ofBytes (LoRa.buildMessage name v1 v2 s).toBytes).value2 = v2
      ∧ (LoRaMessage.ofBytes (LoRa.buildMessage name v1 v2 s).toBytes).messageId
          = s.messageCounter := by
  have hl : (name.take 15).length = 15 := by
    rw [List.length_take]
    omega
  have hcmd := LoRa.buildMessage_command name v1 v2 s (fun d hd => (hn d hd).1)
  rw [hl] at hcmd
  rw [LoRa.buildMessage_decode name v1 v2 s hn h1 h2 hc]
  refine ⟨by simpa using hcmd, hl, rfl, ?_, rfl, rfl, rfl⟩
  rw [hcmd, cstr_append_nul _ _ (fun d hd => (hn d (List.mem_of_mem_take hd)).1)]

/-- Witness of `c3_truncation`: a name of seventeen bytes sent at startup. -/
theorem c3_truncation_witness :
    (LoRa.buildMessage name17 7 (-1) LoRa.init).command = name17.take 15 ++ [NUL]
      ∧ cstr (LoRaMessage.ofBytes (LoRa.buildMessage name17 7 (-1) LoRa.init).toBytes).command
          = name17.take 15 :=
  have h := c3_truncation name17 7 (-1) LoRa.init (by decide) (by decide) (by decide)
    (by decide) (by decide)
  ⟨h.1, h.2.2.2.1⟩

/-! ## C4: packets of the wrong size in the LoRa receiver -/

/-- C4: for every received packet whose size differs from `sizeof(LoRaMessage)`,
`receiveLoRa` returns the state it was given: `executeCommand` is not called, nothing is
printed or sent, and `ledState`, `showRunning`, `currentScene`, `messageCounter` and the
LED output are unchanged. -/
theorem c4_wrong_size_discarded (isTransmitter : Bool) (packet : List Nat) (rssi : Int)
    (snr : String) (s : LoRa) (h : packet.length ≠ sizeofLoRaMessage) :
    LoRa.receiveLoRa isTransmitter packet rssi snr s = s := by
  simp [LoRa.receiveLoRa, h]

/-- Witness of `c4_wrong_size_discarded`: a packet of six bytes spelling `LED_ON`. -/
theorem c4_wrong_size_discarded_witness :
    datagram6.length ≠ sizeofLoRaMessage
      ∧ LoRa.receiveLoRa false datagram6 (-40) "9.50" LoRa.init = LoRa.init :=
  ⟨by decide, c4_wrong_size_discarded false datagram6 (-40) "9.50" LoRa.init (by decide)⟩

/-! ## C5: datagrams of the wrong size in the ESP-NOW receiver -/

/-- C5 does not hold of the code: `OnDataRecv` never looks at `len`.  A datagram of 45
bytes (not `sizeof(struct_message)` = 44) whose first bytes spell `LED_ON` is executed and
drives the LED high, and for a datagram of 6 bytes the copy of 44 bytes reads past the
end of the buffer. -/
theorem c5_wrong_size_executed :
    datagram45.length = 45 ∧ datagram45.length ≠ sizeofStructMessage
      ∧ EspNow.init.pin = false
      ∧ (EspNow.OnDataRecv datagram45 5 EspNow.init).map (fun s => s.pin) = some true
      ∧ (EspNow.OnDataRecv datagram45 5 EspNow.init).map (fun s => s.serial)
          = some ["\n📨 Message Received:", "  Command: LED_ON", "  Value1: 0", "  Value2: 0",
              "  Latency: 5ms", "💡 LED ON"]
      ∧ datagram6.length ≠ sizeofStructMessage
      ∧ EspNow.OnDataRecv datagram6 5 EspNow.init = none := by
  decide

/-! ## C6: unknown commands -/

theorem streq_false_of_ne (cmd name : List Char) (hname : cstr name = name)
    (h : cstr cmd ≠ name) : streq cmd name = false := by
  unfold streq
  rw [hname]
  simpa using h

/-- C6: for every command string that is none of the names the dispatcher compares
against, and every `value1` and `value2`, `executeCommand` of the ESP-NOW sketch and of
the LoRa sketch (in either role) returns the state it was given with one more printed
line, the unknown-command line: pattern state, show state, LED output and the list of
sent packets are unchanged. -/
theorem c6_unknown_command_inert (cmd : List Char) (val1 val2 : Int) (isTransmitter : Bool)
    (e : EspNow) (l : LoRa) :
    (cstr cmd ∉ EspNow.commandNames →
        EspNow.executeCommand cmd val1 val2 e
          = { e with serial := e.serial ++ ["❓ Unknown command"] })
      ∧ (cstr cmd ∉ LoRa.commandNames →
        LoRa.executeCommand isTransmitter cmd val1 val2 l
          = { l with serial := l.serial ++ ["❓ Unknown command: " ++ String.mk (cstr cmd)] }) := by
  constructor
  · intro h
    simp only [EspNow.commandNames, List.mem_cons, List.mem_singleton, not_or,
      List.not_mem_nil, or_false] at h
    obtain ⟨h1, h2, h3, h4, h5, h6⟩ := h
    simp [EspNow.executeCommand, EspNow.println,
      streq_false_of_ne cmd LED_ON (by decide) h1,
      streq_false_of_ne cmd LED_OFF (by decide) h2,
      streq_false_of_ne cmd PATTERN (by decide) h3,
      streq_false_of_ne cmd SHOW_START (by decide) h4,
      streq_false_of_ne cmd SHOW_STOP (by decide) h5,
      streq_false_of_ne cmd SCENE (by decide) h6]
  · intro h
    simp only [LoRa.commandNames, List.mem_cons, List.mem_singleton, not_or,
      List.not_mem_nil, or_false] at h
    obtain ⟨h1, h2, h3, h4, h5, h6, h7, h8⟩ := h
    simp [LoRa.executeCommand, LoRa.println,
      streq_false_of_ne cmd LED_ON (by decide) h1,
      streq_false_of_ne cmd LED_OFF (by decide) h2,
      streq_false_of_ne cmd LED_TOGGLE (by decide) h3,
      streq_false_of_ne cmd SHOW_START (by decide) h4,
      streq_false_of_ne cmd SHOW_STOP (by decide) h5,
      streq_false_of_ne cmd SCENE (by decide) h6,
      streq_false_of_ne cmd PING (by decide) h7,
      streq_false_of_ne cmd PONG (by decide) h8]

/-- Witness of `c6_unknown_command_inert`: the command `DANCE` at startup. -/
theorem c6_unknown_command_inert_witness :
    EspNow.executeCommand DANCE 1 2 EspNow.init
        = { EspNow.init with serial := ["❓ Unknown command"] }
      ∧ LoRa.executeCommand false DANCE 1 2 LoRa.init
        = { LoRa.init with serial := ["❓ Unknown command: DANCE"] } :=
  have h := c6_unknown_command_inert DANCE 1 2 false EspNow.init LoRa.init
  ⟨h.1 (by decide), h.2 (by decide)⟩

/-! ## C7: direct override of a running pattern -/

/-- C7: in the ESP-NOW dispatcher, for every state in which the fast-blink pattern is
active (`ledPattern = 2`) and whatever the output level, `executeCommand("LED_OFF")`
drives the output low and `executeCommand("LED_ON")` drives it high; `ledPattern` stays 2
and `lastPatternChange` stays as it was, and apart from the printed line nothing else
changes. -/
theorem c7_direct_override (val1 val2 : Int) (s : EspNow) (hp : s.ledPattern = 2) :
    (EspNow.executeCommand LED_OFF val1 val2 s).pin = false
      ∧ (EspNow.executeCommand LED_OFF val1 val2 s).ledPattern = 2
      ∧ (EspNow.executeCommand LED_OFF val1 val2 s).lastPatternChange = s.lastPatternChange
      ∧ EspNow.executeCommand LED_OFF val1 val2 s
          = { s with pin := false, serial := s.serial ++ ["💡 LED OFF"] }
      ∧ (EspNow.executeCommand LED_ON val1 val2 s).pin = true
      ∧ (EspNow.executeCommand LED_ON val1 val2 s).ledPattern = 2
      ∧ (EspNow.executeCommand LED_ON val1 val2 s).lastPatternChange = s.lastPatternChange
      ∧ EspNow.executeCommand LED_ON val1 val2 s
          = { s with pin := true, serial := s.serial ++ ["💡 LED ON"] } := by
  have hoff : EspNow.executeCommand LED_OFF val1 val2 s
      = { s with pin := false, serial := s.serial ++ ["💡 LED OFF"] } := by
    have h1 : streq LED_OFF LED_ON = false := by decide
    have h2 : streq LED_OFF LED_OFF = true := by decide
    simp [EspNow.executeCommand, EspNow.println, h1, h2, digitalWrite, LOW]
  have hon : EspNow.executeCommand LED_ON val1 val2 s
      = { s with pin := true, serial := s.serial ++ ["💡 LED ON"] } := by
    have h1 : streq LED_ON LED_ON = true := by decide
    simp [EspNow.executeCommand, EspNow.println, h1, digitalWrite, HIGH]
  rw [hoff, hon]
  exact ⟨rfl, hp, rfl, rfl, rfl, hp, rfl, rfl⟩

/-- Witness of `c7_direct_override`: fast blink with the LED lit, then `LED_OFF`. -/
theorem c7_direct_override_witness :
    (EspNow.executeCommand LED_OFF 0 0
        { EspNow.init with ledPattern := 2, pin := true, lastPatternChange := 1234 }).pin = false
      ∧ (EspNow.executeCommand LED_OFF 0 0
        { EspNow.init with ledPattern := 2, pin := true, lastPatternChange := 1234 }).ledPattern
          = 2 :=
  have h := c7_direct_override 0 0
    { EspNow.init with ledPattern := 2, pin := true, lastPatternChange := 1234 } rfl
  ⟨h.1, h.2.1⟩

/-! ## C8: pulse interval of a scene -/

theorem EspNow.executeCommand_scene (val1 val2 : Int) (s : EspNow) :
    EspNow.executeCommand SCENE val1 val2 s
      = { s with
          serial := s.serial ++ ["🎭 Scene changed to: " ++ toString val1]
          ledPattern := wrapInt32 (val1 + 10) } := by
  have h1 : streq SCENE LED_ON = false := by decide
  have h2 : streq SCENE LED_OFF = false := by decide
  have h3 : streq SCENE PATTERN = false := by decide
  have h4 : streq SCENE SHOW_START = false := by decide
  have h5 : streq SCENE SHOW_STOP = false := by decide
  have h6 : streq SCENE SCENE = true := by decide
  simp [EspNow.executeCommand, EspNow.println, h1, h2, h3, h4, h5, h6]

/-- C8 does not hold of the code: `SCENE` stores `value1 + 10` in `ledPattern`, while
`updateLED` pulses with interval `1000 / (ledPattern - 9)` for the patterns 10, 11 and 12
only.  After `SCENE` with `value1 = 2` the pattern is 12 and the output toggles once more
than 333 ms have passed (not 500 ms); after `value1 = 1` it toggles once more than 500 ms
have passed (not 1000 ms); after `value1 = 3` the pattern is 13 and no tick ever changes
anything. -/
theorem c8_scene_interval_is_shifted :
    (EspNow.executeCommand SCENE 2 0 EspNow.init).ledPattern = 12
      ∧ (EspNow.updateLED 333 (EspNow.executeCommand SCENE 2 0 EspNow.init)).pin = false
      ∧ (EspNow.updateLED 334 (EspNow.executeCommand SCENE 2 0 EspNow.init)).pin = true
      ∧ (EspNow.executeCommand SCENE 1 0 EspNow.init).ledPattern = 11
      ∧ (EspNow.updateLED 500 (EspNow.executeCommand SCENE 1 0 EspNow.init)).pin = false
      ∧ (EspNow.updateLED 501 (EspNow.executeCommand SCENE 1 0 EspNow.init)).pin = true
      ∧ (EspNow.executeCommand SCENE 3 0 EspNow.init).ledPattern = 13
      ∧ ∀ now : Nat, EspNow.updateLED now (EspNow.executeCommand SCENE 3 0 EspNow.init)
          = EspNow.executeCommand SCENE 3 0 EspNow.init := by
  refine ⟨by decide, by decide, by decide, by decide, by decide, by decide, by decide, ?_⟩
  intro now
  have h : (EspNow.executeCommand SCENE 3 0 EspNow.init).ledPattern = 13 := by decide
  simp [EspNow.updateLED, h]

/-! ## C9: the serial parsers -/

theorem toNat_ofNat_lower (n : Nat) (h1 : 65 ≤ n) (h2 : n ≤ 90) :
    (Char.ofNat (n + 32)).toNat = n + 32 := by
  interval_cases n <;> rfl

theorem isspace_tolower (c : Char) : isspace (tolower c) = isspace c := by
  unfold tolower
  split_ifs with h
  · have e := toNat_ofNat_lower c.toNat h.1 h.2
    unfold isspace
    rw [e]
    have a1 : (c.toNat + 32 == 32) = false := by simp; omega
    have a2 : (c.toNat == 32) = false := by simp; omega
    have a3 : decide (c.toNat + 32 ≤ 13) = false := by simp
    have a4 : decide (c.toNat ≤ 13) = false := by simp; omega
    simp [a1, a2, a3, a4]
  · rfl

theorem tolower_tolower (c : Char) : tolower (tolower c) = tolower c := by
  by_cases h : 65 ≤ c.toNat ∧ c.toNat ≤ 90
  · have e := toNat_ofNat_lower c.toNat h.1 h.2
    have hc : tolower c = Char.ofNat (c.toNat + 32) := by simp [tolower, h]
    rw [hc]
    unfold tolower
    rw [e]
    have h3 : ¬ (65 ≤ c.toNat + 32 ∧ c.toNat + 32 ≤ 90) := by omega
    rw [if_neg h3]
  · have hc : tolower c = c := by simp [tolower, h]
    rw [hc, hc]

theorem toLowerCase_idem (s : List Char) : toLowerCase (toLowerCase s) = toLowerCase s := by
  simp [toLowerCase, tolower_tolower]

theorem isspace_comp_tolower : isspace ∘ tolower = isspace :=
  funext isspace_tolower

theorem trim_toLowerCase (s : List Char) : trim (toLowerCase s) = toLowerCase (trim s) := by
  unfold trim toLowerCase
  rw [List.dropWhile_map, isspace_comp_tolower]
  unfold List.rdropWhile
  rw [← List.map_reverse, List.dropWhile_map, isspace_comp_tolower, List.map_reverse]

theorem dropWhile_of_initial {p : Char → Bool} {u t : List Char} (ht : t.dropWhile p = t)
    (hu : u <+: t) : u.dropWhile p = u := by
  cases u with
  | nil => rfl
  | cons a u =>
    obtain ⟨r, rfl⟩ := hu
    have h := List.dropWhile_eq_self_iff.mp ht (by simp)
    have ha : p a = false := by simpa using h
    simp [List.dropWhile, ha]

theorem trim_trim (s : List Char) : trim (trim s) = trim s := by
  unfold trim
  rw [dropWhile_of_initial (List.dropWhile_idempotent isspace s)
    ( List.rdropWhile_prefix isspace (s.dropWhile isspace)), List.rdropWhile_idempotent]

theorem normalize_idem (s : List Char) :
    toLowerCase (trim (toLowerCase (trim s))) = toLowerCase (trim s) := by
  rw [trim_toLowerCase, trim_trim, toLowerCase_idem]

/-- C9, as stated, fails for the ESP-NOW master: its `processSerialCommand` trims the line
but does not lower-case it, so the line `START` is answered with the unknown-command
response, while its trimmed and lower-cased form `start` sends `SHOW_START`. -/
theorem c9_espnow_is_case_sensitive :
    EspNow.processSerialCommand (some lineUpper) 0 true EspNow.init
        ≠ EspNow.processSerialCommand (some (toLowerCase (trim lineUpper))) 0 true EspNow.init
      ∧ EspNow.processSerialCommand (some lineUpper) 0 true EspNow.init
        = { EspNow.init with
            serial := ["Unknown command. Try: start, stop, on, off, scene1-3, pattern0-9"] }
      ∧ (EspNow.processSerialCommand (some lineUpper) 0 true EspNow.init).radio = []
      ∧ (EspNow.processSerialCommand (some (toLowerCase (trim lineUpper))) 0 true
          EspNow.init).serial = ["📤 Sent command: SHOW_START"] := by
  decide

/-- C9, amended: the serial parser of the LoRa transmitter is whitespace-trimmed and
case-insensitive: every line has the same effect (command sent with its name and value1,
help, status or unknown-command response) as the line with surrounding whitespace removed
and all letters lower-cased; `START` and `  start  ` both send `SHOW_START`.  The serial
parser of the ESP-NOW master is whitespace-trimmed and case-sensitive: every line has the
same effect as the line with surrounding whitespace removed. -/
theorem c9_serial_normalisation (role : Bool) (line : List Char) (l : LoRa) (e : EspNow)
    (now : Nat) (sendOk : Bool) :
    LoRa.processSerialCommand role (some line) l
        = LoRa.processSerialCommand role (some (toLowerCase (trim line))) l
      ∧ EspNow.processSerialCommand (some line) now sendOk e
        = EspNow.processSerialCommand (some (trim line)) now sendOk e
      ∧ LoRa.processSerialCommand role (some lineUpper) l = LoRa.sendLoRaCommand SHOW_START 0 0 l
      ∧ LoRa.processSerialCommand role (some linePadded) l = LoRa.sendLoRaCommand SHOW_START 0 0 l
      ∧ EspNow.processSerialCommand (some linePadded) now sendOk e
        = EspNow.sendCommand SHOW_START 0 0 now sendOk e := by
  have h1 : toLowerCase (trim lineUpper) = ['s', 't', 'a', 'r', 't'] := by decide
  have h2 : toLowerCase (trim linePadded) = ['s', 't', 'a', 'r', 't'] := by decide
  have h3 : trim linePadded = ['s', 't', 'a', 'r', 't'] := by decide
  refine ⟨?_, ?_, ?_, ?_, ?_⟩
  · simp only [LoRa.processSerialCommand, normalize_idem]
  · simp only [EspNow.processSerialCommand, trim_trim]
  · simp only [LoRa.processSerialCommand, h1, if_true]
  · simp only [LoRa.processSerialCommand, h2, if_true]
  · simp only [EspNow.processSerialCommand, h3, if_true]

/-! ## C10: PING and PONG in the LoRa dispatcher -/

theorem LoRa.executeCommand_ping (isTransmitter : Bool) (val1 val2 : Int) (s : LoRa) :
    LoRa.executeCommand isTransmitter PING val1 val2 s
      = if isTransmitter = false then
          LoRa.sendLoRaCommand PONG 0 0 (s.println "🏓 PING received! Sending PONG...")
        else s.println "🏓 PING received! Sending PONG..." := by
  have h1 : streq PING LED_ON = false := by decide
  have h2 : streq PING LED_OFF = false := by decide
  have h3 : streq PING LED_TOGGLE = false := by decide
  have h4 : streq PING SHOW_START = false := by decide
  have h5 : streq PING SHOW_STOP = false := by decide
  have h6 : streq PING SCENE = false := by decide
  have h7 : streq PING PING = true := by decide
  simp [LoRa.executeCommand, h1, h2, h3, h4, h5, h6, h7]

theorem LoRa.executeCommand_pong (isTransmitter : Bool) (val1 val2 : Int) (s : LoRa) :
    LoRa.executeCommand isTransmitter PONG val1 val2 s = s.println "🏓 PONG received!" := by
  have h1 : streq PONG LED_ON = false := by decide
  have h2 : streq PONG LED_OFF = false := by decide
  have h3 : streq PONG LED_TOGGLE = false := by decide
  have h4 : streq PONG SHOW_START = false := by decide
  have h5 : streq PONG SHOW_STOP = false := by decide
  have h6 : streq PONG SCENE = false := by decide
  have h7 : streq PONG PING = false := by decide
  have h8 : streq PONG PONG = true := by decide
  simp [LoRa.executeCommand, h1, h2, h3, h4, h5, h6, h7, h8]

/-- C10: with the role taken as a parameter, dispatching `PING` in the LoRa sketch hands
exactly one packet to the radio when the role is receiver, the `PONG` message with
`value1 = value2 = 0` and `messageId` equal to the current `messageCounter`, which is then
incremented (modulo `2^32`), and hands nothing to the radio when the role is transmitter;
dispatching `PONG` sends nothing in either role; in every case only printed lines are
added besides, so `ledState`, `showRunning`, `currentScene` and the LED output are
unchanged. -/
theorem c10_ping_pong (role : Bool) (val1 val2 : Int) (s : LoRa) :
    LoRa.executeCommand false PING val1 val2 s
        = { s with
            messageCounter := (s.messageCounter + 1) % 2 ^ 32
            radio := s.radio ++ [({ command := PONG ++ List.replicate 12 NUL
                                    value1 := 0
                                    value2 := 0
                                    messageId := s.messageCounter } : LoRaMessage).toBytes]
            serial := s.serial ++ ["🏓 PING received! Sending PONG...",
              "📤 Sent: PONG [0,0] #" ++ toString s.messageCounter] }
      ∧ LoRa.executeCommand true PING val1 val2 s
        = { s with serial := s.serial ++ ["🏓 PING received! Sending PONG..."] }
      ∧ LoRa.executeCommand role PONG val1 val2 s
        = { s with serial := s.serial ++ ["🏓 PONG received!"] }
      ∧ (LoRa.executeCommand role PING val1 val2 s).ledState = s.ledState
      ∧ (LoRa.executeCommand role PING val1 val2 s).showRunning = s.showRunning
      ∧ (LoRa.executeCommand role PING val1 val2 s).currentScene = s.currentScene
      ∧ (LoRa.executeCommand role PING val1 val2 s).pin = s.pin := by
  have hcmd : strncpy PONG 15 ++ [NUL] = PONG ++ List.replicate 12 NUL := by decide
  have hpre : "📤 Sent: " ++ String.mk (cstr PONG) ++ " [" ++ toString (0 : Int) ++ ","
      ++ toString (0 : Int) ++ "] #" = "📤 Sent: PONG [0,0] #" := by decide
  refine ⟨?_, ?_, ?_, ?_⟩
  · rw [LoRa.executeCommand_ping]
    simp only [LoRa.sendLoRaCommand, LoRa.buildMessage, LoRa.println, hcmd, hpre]
    simp
  · rw [LoRa.executeCommand_ping]
    simp [LoRa.println]
  · rw [LoRa.executeCommand_pong]
    simp [LoRa.println]
  · rw [LoRa.executeCommand_ping]
    cases role <;> simp [LoRa.sendLoRaCommand, LoRa.println]

/-! ## C11: switching the pattern -/

theorem EspNow.updateLED_interval (now : Nat) (s : EspNow) :
    EspNow.updateLED now s
      = match EspNow.patternInterval s.ledPattern with
        | some i => if usub32 now s.lastPatternChange > i then EspNow.toggleAt now s else s
        | none => if s.ledPattern = 0 then { s with pin := false } else s := by
  unfold EspNow.updateLED EspNow.patternInterval
  by_cases h0 : s.ledPattern = 0
  · simp [h0, digitalWrite, LOW]
  by_cases h1 : s.ledPattern = 1
  · simp [h1]
  by_cases h2 : s.ledPattern = 2
  · simp [h2]
  by_cases h3 : s.ledPattern = 3
  · simp [h3]
  by_cases h4 : s.ledPattern = 10 ∨ s.ledPattern = 11 ∨ s.ledPattern = 12
  · simp [h0, h1, h2, h3, h4]
  · simp [h0, h1, h2, h3, h4]

theorem EspNow.executeCommand_pattern (val1 val2 : Int) (s : EspNow) :
    EspNow.executeCommand PATTERN val1 val2 s
      = { s with
          ledPattern := val1
          serial := s.serial ++ ["🎨 Pattern changed to: " ++ toString val1] } := by
  have h1 : streq PATTERN LED_ON = false := by decide
  have h2 : streq PATTERN LED_OFF = false := by decide
  have h3 : streq PATTERN PATTERN = true := by decide
  simp [EspNow.executeCommand, EspNow.println, h1, h2, h3]

/-- C11, as stated, fails: `executeCommand` has no clock and `PATTERN` does not write
`lastPatternChange`.  From startup (`lastPatternChange = 0`), `PATTERN` with `value1 = 1`
applied at t = 5000 ms leaves `lastPatternChange = 0`, not 5000, and the tick at 5010 ms,
10 ms after the switch, already toggles the output. -/
theorem c11_pattern_keeps_old_phase :
    (EspNow.executeCommand PATTERN 1 0 EspNow.init).ledPattern = 1
      ∧ (EspNow.executeCommand PATTERN 1 0 EspNow.init).lastPatternChange = 0
      ∧ (EspNow.executeCommand PATTERN 1 0 EspNow.init).lastPatternChange ≠ 5000
      ∧ (EspNow.executeCommand PATTERN 1 0 EspNow.init).pin = false
      ∧ (EspNow.updateLED 5010 (EspNow.executeCommand PATTERN 1 0 EspNow.init)).pin = true
      ∧ 5010 - 5000 < 1000 := by
  decide

/-- C11, amended: for every state and every pattern id p, after the ESP-NOW dispatcher
applies `PATTERN` with `value1 = p` the active pattern is p, the output level is as it
was, and `lastPatternChange` is what it was before the command (it is not set to the time
of the command).  A following tick at time `now` inverts the output exactly when either
p is a timed pattern and the unsigned difference `now - lastPatternChange` (counted from
the transition before the command) exceeds the interval of p, in which case
`lastPatternChange` becomes `now`, or p is 0 and the output is high, in which case the
tick drives it low; in every other case the tick changes nothing. -/
theorem c11_pattern_switch (p val2 : Int) (s : EspNow) (now : Nat) :
    EspNow.executeCommand PATTERN p val2 s
        = { s with
            ledPattern := p
            serial := s.serial ++ ["🎨 Pattern changed to: " ++ toString p] }
      ∧ (EspNow.executeCommand PATTERN p val2 s).ledPattern = p
      ∧ (EspNow.executeCommand PATTERN p val2 s).lastPatternChange = s.lastPatternChange
      ∧ (EspNow.executeCommand PATTERN p val2 s).pin = s.pin
      ∧ ((EspNow.updateLED now (EspNow.executeCommand PATTERN p val2 s)).pin = (!s.pin)
          ↔ ((∃ i, EspNow.patternInterval p = some i ∧ usub32 now s.lastPatternChange > i)
            ∨ (p = 0 ∧ s.pin = true)))
      ∧ EspNow.updateLED now (EspNow.executeCommand PATTERN p val2 s)
        = match EspNow.patternInterval p with
          | some i =>
            if usub32 now s.lastPatternChange > i then
              { EspNow.executeCommand PATTERN p val2 s with
                pin := !s.pin, lastPatternChange := now }
            else EspNow.executeCommand PATTERN p val2 s
          | none =>
            if p = 0 then { EspNow.executeCommand PATTERN p val2 s with pin := false }
            else EspNow.executeCommand PATTERN p val2 s := by
  have h0 : EspNow.patternInterval 0 = none := by decide
  refine ⟨EspNow.executeCommand_pattern p val2 s, ?_, ?_, ?_, ?_, ?_⟩
  · rw [EspNow.executeCommand_pattern]
  · rw [EspNow.executeCommand_pattern]
  · rw [EspNow.executeCommand_pattern]
  · rw [EspNow.updateLED_interval, EspNow.executeCommand_pattern]
    simp only [EspNow.toggleAt, toggle_level]
    cases hi : EspNow.patternInterval p with
    | none =>
      by_cases hp : p = 0
      · cases hpin : s.pin <;> simp [hp, hpin]
      · cases hpin : s.pin <;> simp [hp, hpin]
    | some i =>
      have hp : p ≠ 0 := by
        intro h
        rw [h, h0] at hi
        exact Option.noConfusion hi
      by_cases hg : usub32 now s.lastPatternChange > i
      · simp [hg, hp]
      · cases hpin : s.pin <;> simp [hg, hp, hpin]
  · rw [EspNow.updateLED_interval, EspNow.executeCommand_pattern]
    simp only [EspNow.toggleAt, toggle_level]

/-! ## C12: state components changed by one command -/

theorem EspNow.espnow_changes_le_one (cmd : List Char) (val1 val2 : Int) (s : EspNow)
    (h : cstr cmd ≠ SHOW_STOP) :
    EspNow.changedComponents s (EspNow.executeCommand cmd val1 val2 s) ≤ 1 := by
  have hs := streq_false_of_ne cmd SHOW_STOP (by decide) h
  unfold EspNow.executeCommand EspNow.changedComponents EspNow.println
  split_ifs <;> simp_all

theorem LoRa.lora_changes_le_one (role : Bool) (cmd : List Char) (val1 val2 : Int)
    (s : LoRa) (h1 : cstr cmd ≠ SHOW_START) (h2 : cstr cmd ≠ SHOW_STOP) :
    LoRa.changedComponents s (LoRa.executeCommand role cmd val1 val2 s) ≤ 1 := by
  have hs1 := streq_false_of_ne cmd SHOW_START (by decide) h1
  have hs2 := streq_false_of_ne cmd SHOW_STOP (by decide) h2
  unfold LoRa.executeCommand
  simp only [hs1, hs2, Bool.false_eq_true, if_false]
  split_ifs <;> simp [LoRa.changedComponents, LoRa.println, LoRa.sendLoRaCommand]
  all_goals split_ifs <;> omega

/-- C12, as stated, fails: in the ESP-NOW sketch `SHOW_STOP`, dispatched while a pattern
is active and the LED is lit, changes both the pattern state and the LED output; in the
LoRa sketch `SHOW_START` at startup changes both the show state and the LED output. -/
theorem c12_show_commands_change_two :
    SHOW_STOP ∈ EspNow.commandNames ∧ SHOW_START ∈ LoRa.commandNames
      ∧ EspNow.changedComponents
          (EspNow.executeCommand LED_ON 0 0 (EspNow.executeCommand SHOW_START 0 0 EspNow.init))
          (EspNow.executeCommand SHOW_STOP 0 0
            (EspNow.executeCommand LED_ON 0 0 (EspNow.executeCommand SHOW_START 0 0 EspNow.init)))
        = 2
      ∧ LoRa.changedComponents LoRa.init (LoRa.executeCommand false SHOW_START 0 0 LoRa.init)
        = 2 := by
  decide

/-- C12, amended: for every prior state, every command of the ESP-NOW dispatcher other
than `SHOW_STOP` and every command of the LoRa dispatcher other than `SHOW_START` and
`SHOW_STOP` changes at most one of the pattern state (`ledPattern`), the show state
(`showRunning` / `currentScene`) and the LED output level.  `SHOW_STOP` of the ESP-NOW
dispatcher sets `ledPattern` to 0 and drives the output low; `SHOW_START` and `SHOW_STOP`
of the LoRa dispatcher set `showRunning` and drive the output high, respectively low. -/
theorem c12_changed_components (role : Bool) (cmd : List Char) (val1 val2 : Int)
    (e : EspNow) (l : LoRa) :
    (cstr cmd ≠ SHOW_STOP →
        EspNow.changedComponents e (EspNow.executeCommand cmd val1 val2 e) ≤ 1)
      ∧ (cstr cmd ≠ SHOW_START → cstr cmd ≠ SHOW_STOP →
        LoRa.changedComponents l (LoRa.executeCommand role cmd val1 val2 l) ≤ 1)
      ∧ EspNow.executeCommand SHOW_STOP val1 val2 e
        = { e with ledPattern := 0, pin := false, serial := e.serial ++ ["⏹️ SHOW STOPPED!"] }
      ∧ LoRa.executeCommand role SHOW_START val1 val2 l
        = { l with showRunning := true, pin := true,
                   serial := l.serial ++ ["🎬 SHOW STARTED!"] }
      ∧ LoRa.executeCommand role SHOW_STOP val1 val2 l
        = { l with showRunning := false, pin := false,
                   serial := l.serial ++ ["⏹️ SHOW STOPPED!"] } := by
  refine ⟨EspNow.espnow_changes_le_one cmd val1 val2 e,
    LoRa.lora_changes_le_one role cmd val1 val2 l, ?_, ?_, ?_⟩
  · have h1 : streq SHOW_STOP LED_ON = false := by decide
    have h2 : streq SHOW_STOP LED_OFF = false := by decide
    have h3 : streq SHOW_STOP PATTERN = false := by decide
    have h4 : streq SHOW_STOP SHOW_START = false := by decide
    have h5 : streq SHOW_STOP SHOW_STOP = true := by decide
    simp [EspNow.executeCommand, EspNow.println, h1, h2, h3, h4, h5, digitalWrite, LOW]
  · have h1 : streq SHOW_START LED_ON = false := by decide
    have h2 : streq SHOW_START LED_OFF = false := by decide
    have h3 : streq SHOW_START LED_TOGGLE = false := by decide
    have h4 : streq SHOW_START SHOW_START = true := by decide
    simp [LoRa.executeCommand, LoRa.println, h1, h2, h3, h4, digitalWrite, HIGH]
  · have h1 : streq SHOW_STOP LED_ON = false := by decide
    have h2 : streq SHOW_STOP LED_OFF = false := by decide
    have h3 : streq SHOW_STOP LED_TOGGLE = false := by decide
    have h4 : streq SHOW_STOP SHOW_START = false := by decide
    have h5 : streq SHOW_STOP SHOW_STOP = true := by decide
    simp [LoRa.executeCommand, LoRa.println, h1, h2, h3, h4, h5, digitalWrite, LOW]

/-- Witness of `c12_changed_components`: `SCENE` with `value1 = 2` at startup changes the
pattern state alone in the ESP-NOW sketch and the show state alone in the LoRa sketch. -/
theorem c12_changed_components_witness :
    EspNow.changedComponents EspNow.init (EspNow.executeCommand SCENE 2 0 EspNow.init) ≤ 1
      ∧ LoRa.changedComponents LoRa.init (LoRa.executeCommand false SCENE 2 0 LoRa.init) ≤ 1 :=
  have h := c12_changed_components false SCENE 2 0 EspNow.init LoRa.init
  ⟨h.1 (by decide), h.2.1 (by decide) (by decide)⟩

/-! ## C13: the pulse pattern -/

theorem wrapInt32_of_range (x : Int) (h1 : -(2 ^ 31) ≤ x) (h2 : x < 2 ^ 31) :
    wrapInt32 x = x :=
  toI32_toU32 x h1 h2

theorem pulse_idle (now now2 : Nat) (s : PulseState) (h : ¬ usub32 now s.lastUpdate > 30) :
    pulse now now2 s = s := by
  simp [pulse, h]

theorem pulse_step (now now2 : Nat) (s : PulseState) (hi : s.Inv)
    (h : usub32 now s.lastUpdate > 30) :
    pulse now now2 s
      = { lastUpdate := now2
          brightness := s.brightness + s.fadeAmount
          fadeAmount :=
            if s.brightness + s.fadeAmount = 0 ∨ s.brightness + s.fadeAmount = 255 then
              -s.fadeAmount
            else s.fadeAmount
          pwm := s.pwm ++ [s.brightness] } := by
  obtain ⟨hf, hm, _⟩ := hi
  have hb : wrapInt32 (s.brightness + s.fadeAmount) = s.brightness + s.fadeAmount :=
    wrapInt32_of_range _ (by rcases hf with ⟨a, b, c⟩ | ⟨a, b, c⟩ <;> omega)
      (by rcases hf with ⟨a, b, c⟩ | ⟨a, b, c⟩ <;> omega)
  have hn : wrapInt32 (-s.fadeAmount) = -s.fadeAmount :=
    wrapInt32_of_range _ (by rcases hf with ⟨a, b, c⟩ | ⟨a, b, c⟩ <;> omega)
      (by rcases hf with ⟨a, b, c⟩ | ⟨a, b, c⟩ <;> omega)
  have hc : (s.brightness + s.fadeAmount ≤ 0 ∨ s.brightness + s.fadeAmount ≥ 255)
      ↔ (s.brightness + s.fadeAmount = 0 ∨ s.brightness + s.fadeAmount = 255) := by
    rcases hf with ⟨a, b, c⟩ | ⟨a, b, c⟩ <;> omega
  simp only [pulse, h, if_true, hb, hn, hc]

theorem pulse_inv (now now2 : Nat) (s : PulseState) (hi : s.Inv) : (pulse now now2 s).Inv := by
  by_cases h : usub32 now s.lastUpdate > 30
  · rw [pulse_step now now2 s hi h]
    obtain ⟨hf, hm, hp⟩ := hi
    refine ⟨?_, ?_, ?_⟩
    · simp only
      split_ifs with hc <;> rcases hf with ⟨a, b, c⟩ | ⟨a, b, c⟩ <;> omega
    · simp only
      rcases hf with ⟨a, b, c⟩ | ⟨a, b, c⟩ <;> omega
    · intro v hv
      simp only [List.mem_append, List.mem_singleton] at hv
      rcases hv with hv | hv
      · exact hp v hv
      · rcases hf with ⟨a, b, c⟩ | ⟨a, b, c⟩ <;> omega
  · rw [pulse_idle now now2 s h]
    exact hi

theorem pulseRun_inv (ticks : List (Nat × Nat)) (s : PulseState) (hi : s.Inv) :
    (pulseRun ticks s).Inv := by
  induction ticks generalizing s with
  | nil => exact hi
  | cons t ts ih =>
    obtain ⟨now, now2⟩ := t
    exact ih _ (pulse_inv now now2 s hi)

theorem PulseState.init_inv : PulseState.init.Inv := by decide

set_option maxRecDepth 100000 in
theorem pulse_full_cycle :
    (pulseRun (ticksEvery31 51) PulseState.init).brightness = 255
      ∧ (pulseRun (ticksEvery31 51) PulseState.init).fadeAmount = -5
      ∧ (pulseRun (ticksEvery31 102) PulseState.init).brightness = 0
      ∧ (pulseRun (ticksEvery31 102) PulseState.init).fadeAmount = 5 := by
  decide

/-- C13: starting from `brightness = 0` and `fadeAmount = +5`, after any sequence of calls
of `pulse` the brightness lies in 0..255 and so does every value passed to `analogWrite`;
a call whose time gate is closed changes nothing, and a call whose gate is open (an
update) passes the brightness to `analogWrite`, changes it by exactly 5 (by the current
step), and inverts the step exactly when the new brightness is 0 or 255.  The wave does
reach both bounds: 51 updates lead to 255 with step -5 and 102 updates back to 0 with
step +5. -/
theorem c13_pulse_triangle (ticks : List (Nat × Nat)) (now now2 : Nat) :
    (0 ≤ (pulseRun ticks PulseState.init).brightness
        ∧ (pulseRun ticks PulseState.init).brightness ≤ 255)
      ∧ (∀ v ∈ (pulseRun ticks PulseState.init).pwm, 0 ≤ v ∧ v ≤ 255)
      ∧ ((pulseRun ticks PulseState.init).fadeAmount = 5
        ∨ (pulseRun ticks PulseState.init).fadeAmount = -5)
      ∧ (¬ usub32 now (pulseRun ticks PulseState.init).lastUpdate > 30 →
          pulse now now2 (pulseRun ticks PulseState.init) = pulseRun ticks PulseState.init)
      ∧ (usub32 now (pulseRun ticks PulseState.init).lastUpdate > 30 →
          (pulse now now2 (pulseRun ticks PulseState.init)).pwm
              = (pulseRun ticks PulseState.init).pwm
                ++ [(pulseRun ticks PulseState.init).brightness]
            ∧ (pulse now now2 (pulseRun ticks PulseState.init)).brightness
              = (pulseRun ticks PulseState.init).brightness
                + (pulseRun ticks PulseState.init).fadeAmount
            ∧ ((pulse now now2 (pulseRun ticks PulseState.init)).brightness
                - (pulseRun ticks PulseState.init).brightness).natAbs = 5
            ∧ ((pulse now now2 (pulseRun ticks PulseState.init)).fadeAmount
                  = -(pulseRun ticks PulseState.init).fadeAmount
                ↔ ((pulse now now2 (pulseRun ticks PulseState.init)).brightness = 0
                  ∨ (pulse now now2 (pulseRun ticks PulseState.init)).brightness = 255))
            ∧ ((pulse now now2 (pulseRun ticks PulseState.init)).fadeAmount
                  = (pulseRun ticks PulseState.init).fadeAmount
                ↔ ¬ ((pulse now now2 (pulseRun ticks PulseState.init)).brightness = 0
                  ∨ (pulse now now2 (pulseRun ticks PulseState.init)).brightness = 255)))
      ∧ (pulseRun (ticksEvery31 51) PulseState.init).brightness = 255
      ∧ (pulseRun (ticksEvery31 51) PulseState.init).fadeAmount = -5
      ∧ (pulseRun (ticksEvery31 102) PulseState.init).brightness = 0
      ∧ (pulseRun (ticksEvery31 102) PulseState.init).fadeAmount = 5 := by
  have hi := pulseRun_inv ticks PulseState.init PulseState.init_inv
  generalize pulseRun ticks PulseState.init = s at hi ⊢
  have hi2 := hi
  obtain ⟨hf, hm, hp⟩ := hi2
  refine ⟨?_, hp, ?_, pulse_idle now now2 s, ?_, pulse_full_cycle⟩
  · rcases hf with ⟨a, b, c⟩ | ⟨a, b, c⟩ <;> omega
  · rcases hf with ⟨a, b, c⟩ | ⟨a, b, c⟩
    · exact Or.inl a
    · exact Or.inr a
  · intro h
    rw [pulse_step now now2 s hi h]
    simp only
    refine ⟨trivial, trivial, ?_, ?_, ?_⟩
    · rcases hf with ⟨a, b, c⟩ | ⟨a, b, c⟩ <;> omega
    · split_ifs with hc
      · simp [hc]
      · rcases hf with ⟨a, b, c⟩ | ⟨a, b, c⟩ <;> simp only [hc, iff_false] <;> omega
    · split_ifs with hc
      · rcases hf with ⟨a, b, c⟩ | ⟨a, b, c⟩ <;> simp only [hc, not_true, iff_false] <;> omega
      · simp [hc]

/-- Witness of `c13_pulse_triangle`: the first update, 31 ms after startup, writes 0 to the
PWM output and raises the brightness to 5. -/
theorem c13_pulse_triangle_witness :
    (pulse 31 31 PulseState.init).pwm = [0] ∧ (pulse 31 31 PulseState.init).brightness = 5 :=
  have h := (c13_pulse_triangle [] 31 31).2.2.2.2.1 (by decide)
  ⟨h.1, h.2.1⟩

/-! ## C14: the tracked LED state of the LoRa sketch -/

/-- C14 does not hold of the code: `SHOW_START`, `SHOW_STOP` and the heartbeat of `loop`
write the LED pin without updating `ledState`.  From startup (`ledState = LOW`, output
low) dispatching `SHOW_START` drives the output high while `ledState` stays `LOW`, and
`LED_TOGGLE` dispatched next leaves the output high instead of inverting it; likewise
after `SHOW_START` and `LED_OFF` a loop tick at 1001 ms drives the output high while
`ledState` stays `LOW`. -/
theorem c14_show_start_breaks_tracking :
    LoRa.init.ledState = LOW ∧ LoRa.init.pin = false ∧ LoRa.init.tracked = true
      ∧ (LoRa.executeCommand false SHOW_START 0 0 LoRa.init).pin = true
      ∧ (LoRa.executeCommand false SHOW_START 0 0 LoRa.init).ledState = LOW
      ∧ (LoRa.executeCommand false SHOW_START 0 0 LoRa.init).tracked = false
      ∧ (LoRa.executeCommand false LED_TOGGLE 0 0
          (LoRa.executeCommand false SHOW_START 0 0 LoRa.init)).pin = true
      ∧ (LoRa.executeCommand false LED_OFF 0 0
          (LoRa.executeCommand false SHOW_START 0 0 LoRa.init)).tracked = true
      ∧ (LoRa.loop false none [] 0 "" 1001 1001
          (LoRa.executeCommand false LED_OFF 0 0
            (LoRa.executeCommand false SHOW_START 0 0 LoRa.init))).pin = true
      ∧ (LoRa.loop false none [] 0 "" 1001 1001
          (LoRa.executeCommand false LED_OFF 0 0
            (LoRa.executeCommand false SHOW_START 0 0 LoRa.init))).ledState = LOW := by
  decide

/-! ## Receivers on a command field without terminator -/

theorem LoRa.receiveLoRa_unterminated :
    packetUnterminated.length = sizeofLoRaMessage
      ∧ (LoRa.receiveLoRa false packetUnterminated 0 "1.00" LoRa.init).serial
        = ["\n📨 Message Received:", "  Command: AAAAAAAAAAAAAAAABC", "  Values: [17218,0]",
            "  Message ID: 0", "  RSSI: 0 dBm", "  SNR: 1.00 dB",
            "❓ Unknown command: AAAAAAAAAAAAAAAABC"] := by
  decide

theorem EspNow.OnDataRecv_unterminated :
    datagramUnterminated.length = sizeofStructMessage
      ∧ (EspNow.OnDataRecv datagramUnterminated 5 EspNow.init).map (fun s => s.serial)
        = some ["\n📨 Message Received:", "  Command: AAAAAAAAAAAAAAAAAAAAAAAAAAAAAAAABC",
            "  Value1: 17218", "  Value2: 0", "  Latency: 5ms", "❓ Unknown command"] := by
  decide

end ChaosLab
